import Mathlib

/-
Verification of the identity/session subsystem of koteyye_music_be.

Shallow embedding of:
  internal/service/auth_service.go   (AuthService: Register, Login, GenerateToken,
                                      ValidateToken, PromoteGuestToUser)
  internal/service/oauth_service.go  (OAuthService: findOrCreateUser, createOAuthUser,
                                      GetAuthURL state construction, parseStateForGuestID,
                                      findSubstring)
  internal/middleware/auth.go        (AuthMiddleware, OptionalAuthMiddleware)
  internal/middleware/admin.go       (RequireAdmin, RequireAuth)
  internal/repository/user_repository.go (UserRepository, modelled as a pure store)

Modelling conventions:
  - The Postgres-backed user store is a list of rows plus a serial counter; each
    repository method is a pure function on it.  SQL "WHERE id/email =" lookups
    become List.find?.
  - bcrypt is idealized collision-free: a hash is a record carrying the cost, the
    salt and the hashed password, and comparison checks the embedded password.
    This is exactly the guarantee the service code relies on.
  - The JWT of github.com/golang-jwt/jwt/v5 is a structure (header algorithm,
    payload segment, signature bytes).  The payload segment either decodes to the
    Claims struct or is garbage (undecodable JSON/base64).  HMAC-SHA256 is an
    arbitrary fixed total function from secret and signing input to bytes; none
    of the verified properties require more than it being a function.
    jwt/v5 validates with zero leeway: a token is timely iff
    notBefore <= now < expiresAt (`cmp.Before(exp)` / `!cmp.Before(nbf)`).
  - time.Now() is a single instant `now : Nat` (seconds) passed explicitly.
  - Best-effort writes (UpdateLastLogin, LinkOAuthAccount) can be made to fail
    through an explicit `Faults` record, mirroring a store error on that call.
  - Go strings are Lean Strings except in the OAuth-state parsing functions,
    where the byte-indexing loop of findSubstring makes `List Char` the faithful
    carrier.
-/

namespace KoteyyeMusic

/-! ## bcrypt (golang.org/x/crypto/bcrypt), idealized -/

/-- Idealized bcrypt hash: records cost, salt and the password it was generated
from; comparison is collision-free. -/
structure BcryptHash where
  cost : Nat
  salt : Nat
  password : String
deriving Repr, DecidableEq

/-- bcrypt.DefaultCost. -/
def bcryptDefaultCost : Nat := 10

/-- bcrypt.GenerateFromPassword (salt made explicit). -/
def bcryptGenerate (cost salt : Nat) (password : String) : BcryptHash :=
  { cost := cost, salt := salt, password := password }

/-- bcrypt.CompareHashAndPassword, as a Bool (the Go call errors on mismatch). -/
def bcryptCompare (hash : BcryptHash) (password : String) : Bool :=
  hash.password == password

/-! ## Data model (internal/models/user.go) -/

/-- models.User, restricted to the columns the auth subsystem reads and writes.
Player-state / last-track columns are out of scope (spec §1). -/
structure User where
  id : Int
  email : Option String
  name : Option String
  avatarURL : Option String
  avatarKey : Option String
  passwordHash : Option BcryptHash
  provider : Option String
  externalID : Option String
  role : String
  lastLoginAt : Option Nat
deriving Repr, DecidableEq

/-- models.OAuthUserInfo. -/
structure OAuthUserInfo where
  email : String
  name : String
  avatarURL : String
  externalID : String
  provider : String
deriving Repr, DecidableEq

/-- The users table: rows plus the serial id counter. -/
structure Store where
  users : List User
  nextID : Int
deriving Repr, DecidableEq

/-! ## UserRepository (internal/repository/user_repository.go) -/

/-- SELECT ... FROM users WHERE email = $1 (pgx.ErrNoRows becomes none). -/
def GetUserByEmail (s : Store) (email : String) : Option User :=
  s.users.find? (fun u => u.email == some email)

/-- SELECT ... FROM users WHERE id = $1 (pgx.ErrNoRows becomes none). -/
def GetUserByID (s : Store) (id : Int) : Option User :=
  s.users.find? (fun u => u.id == id)

/-- INSERT INTO users ... RETURNING id, ...: assigns the serial id and returns
the created row. -/
def CreateUser (s : Store) (u : User) : Store × User :=
  let created := { u with id := s.nextID }
  ({ users := s.users ++ [created], nextID := s.nextID + 1 }, created)

/-- UPDATE users SET email, name, avatar_key, provider, external_id, role
WHERE id = $7; none when no row matches ("user not found").  password_hash,
last_login_at and created_at are untouched. -/
def UpdateUser (s : Store) (u : User) : Option Store :=
  if s.users.any (fun old => old.id == u.id) then
    some { s with users := s.users.map (fun old =>
      if old.id == u.id then
        { old with
          email := u.email,
          name := u.name,
          avatarKey := u.avatarKey,
          provider := u.provider,
          externalID := u.externalID,
          role := u.role }
      else old) }
  else none

/-- UPDATE users SET last_login_at = $1 WHERE id = $2; none when RowsAffected
is 0 ("user not found"). -/
def UpdateLastLogin (s : Store) (userID : Int) (t : Nat) : Option Store :=
  if s.users.any (fun u => u.id == userID) then
    some { s with users := s.users.map (fun u =>
      if u.id == userID then { u with lastLoginAt := some t } else u) }
  else none

/-- UPDATE users SET provider = $1, external_id = $2 WHERE id = $3; none when
RowsAffected is 0 ("user not found"). -/
def LinkOAuthAccount (s : Store) (userID : Int) (provider externalID : String) :
    Option Store :=
  if s.users.any (fun u => u.id == userID) then
    some { s with users := s.users.map (fun u =>
      if u.id == userID then
        { u with provider := some provider, externalID := some externalID }
      else u) }
  else none

/-! ## Fault injection for best-effort store writes -/

/-- Which best-effort store writes fail with a store error on this request. -/
structure Faults where
  linkFails : Bool
  lastLoginFails : Bool
deriving Repr, DecidableEq

def noFaults : Faults := { linkFails := false, lastLoginFails := false }

/-- The code's pattern around UpdateLastLogin: on error, log a warning and
continue with the unchanged store. -/
def bestEffortLastLogin (f : Faults) (s : Store) (userID : Int) (now : Nat) : Store :=
  if f.lastLoginFails then s else (UpdateLastLogin s userID now).getD s

/-! ## Session token codec (JWT, service.Claims + golang-jwt/jwt/v5) -/

/-- service.Claims: custom fields plus jwt.RegisteredClaims (seconds). -/
structure Claims where
  userID : Int
  email : String
  role : String
  expiresAt : Nat
  issuedAt : Nat
  notBefore : Nat
deriving Repr, DecidableEq

/-- The payload segment of a compact JWT: either a well-formed encoding of
Claims or undecodable bytes. -/
inductive Payload where
  | claims (c : Claims)
  | garbage (raw : String)
deriving Repr, DecidableEq

/-- Serialization of the payload segment, used as HMAC input. -/
def payloadString : Payload → String
  | .claims c =>
      "claims." ++ toString c.userID ++ "." ++ c.email ++ "." ++ c.role ++ "." ++
        toString c.expiresAt ++ "." ++ toString c.issuedAt ++ "." ++ toString c.notBefore
  | .garbage raw => "garbage." ++ raw

/-- HMAC-SHA256 model: a fixed total function from (secret, signing input) to a
byte list.  No property of the verification depends on its internals. -/
def hmacSHA256 (secret msg : String) : List Nat :=
  (secret ++ "\x00" ++ msg).toList.map Char.toNat

/-- A compact JWT: header algorithm, payload segment, signature bytes. -/
structure Token where
  alg : String
  payload : Payload
  sig : List Nat
deriving Repr, DecidableEq

/-- The signature-check input: base64(header).base64(payload). -/
def signingInput (alg : String) (p : Payload) : String :=
  alg ++ "." ++ payloadString p

/-- The algorithms accepted by the `token.Method.(*jwt.SigningMethodHMAC)`
keyfunc check. -/
def hmacAlgs : List String := ["HS256", "HS384", "HS512"]

/-- The causes of jwt.ParseWithClaims failure that AuthService.ValidateToken
wraps into "failed to parse token: %w"; each jwt/v5 sentinel error is
distinguishable by the caller. -/
inductive TokenError where
  | malformed
  | unexpectedSigningMethod
  | signatureInvalid
  | expired
  | notYetValid
deriving Repr, DecidableEq

/-! ## AuthService (internal/service/auth_service.go) -/

/-- AuthService.GenerateToken: claims with expiresAt = now+24h, issuedAt = now,
notBefore = now, signed with HS256 under the configured secret. -/
def GenerateToken (secret : String) (now : Nat) (user : User) : Token :=
  let email := user.email.getD ""
  let claims : Claims :=
    { userID := user.id,
      email := email,
      role := user.role,
      expiresAt := now + 86400,
      issuedAt := now,
      notBefore := now }
  { alg := "HS256",
    payload := .claims claims,
    sig := hmacSHA256 secret (signingInput "HS256" (.claims claims)) }

/-- AuthService.ValidateToken: jwt.ParseWithClaims with an HMAC-only keyfunc.
Order of jwt/v5: decode (malformed), keyfunc (algorithm), signature, then
claims validation (exp, then nbf) with zero leeway. -/
def ValidateToken (secret : String) (now : Nat) (t : Token) :
    Except TokenError (Int × String) :=
  match t.payload with
  | .garbage _ => .error .malformed
  | .claims c =>
    if hmacAlgs.contains t.alg then
      if t.sig == hmacSHA256 secret (signingInput t.alg t.payload) then
        if now < c.expiresAt then
          if c.notBefore ≤ now then .ok (c.userID, c.role)
          else .error .notYetValid
        else .error .expired
      else .error .signatureInvalid
    else .error .unexpectedSigningMethod

/-- AuthService.Register.  GetUserWithLastTrack enrichment is out of scope; the
returned user is the created row. -/
def Register (secret : String) (now salt : Nat) (s : Store)
    (email password : String) : Store × Except String (Token × User) :=
  match GetUserByEmail s email with
  | some _ => (s, .error "user with this email already exists")
  | none =>
    let hashed := bcryptGenerate bcryptDefaultCost salt password
    let (s1, user) := CreateUser s
      { id := 0,
        email := some email,
        name := none,
        avatarURL := none,
        avatarKey := none,
        passwordHash := some hashed,
        provider := some "local",
        externalID := none,
        role := "user",
        lastLoginAt := none }
    let token := GenerateToken secret now user
    (s1, .ok (token, user))

/-- AuthService.Login.  GetUserWithLastTrack is modelled as a by-id re-read
(the track join is out of scope), with the code's fallback to the basic user
when that read fails. -/
def Login (secret : String) (now : Nat) (f : Faults) (s : Store)
    (email password : String) : Store × Except String (Token × User) :=
  match GetUserByEmail s email with
  | none => (s, .error "invalid email or password")
  | some user =>
    match user.passwordHash with
    | none => (s, .error "user must login via OAuth")
    | some h =>
      if bcryptCompare h password then
        let token := GenerateToken secret now user
        let s1 := bestEffortLastLogin f s user.id now
        let responseUser := (GetUserByID s1 user.id).getD user
        (s1, .ok (token, responseUser))
      else (s, .error "invalid email or password")

/-- AuthService.PromoteGuestToUser. -/
def PromoteGuestToUser (secret : String) (now : Nat) (f : Faults) (s : Store)
    (guestID : Int) (userInfo : OAuthUserInfo) : Store × Except String (Token × User) :=
  match GetUserByID s guestID with
  | none => (s, .error "failed to find guest user: user not found")
  | some user =>
    let name := if userInfo.name == "" then none else some userInfo.name
    let avatarURL := if userInfo.avatarURL == "" then none else some userInfo.avatarURL
    let updatedUser : User :=
      { id := user.id,
        email := some userInfo.email,
        name := name,
        avatarURL := avatarURL,
        avatarKey := none,
        passwordHash := none,
        provider := some userInfo.provider,
        externalID := some userInfo.externalID,
        role := "user",
        lastLoginAt := none }
    match UpdateUser s updatedUser with
    | none => (s, .error "failed to promote guest: user not found")
    | some s1 =>
      match GetUserByID s1 guestID with
      | none => (s1, .error "failed to get promoted user: user not found")
      | some promoted =>
        let s2 := bestEffortLastLogin f s1 promoted.id now
        let token := GenerateToken secret now promoted
        (s2, .ok (token, promoted))

/-! ## OAuthService (internal/service/oauth_service.go) -/

/-- OAuthService.createOAuthUser. -/
def createOAuthUser (s : Store) (userInfo : OAuthUserInfo) : Store × Except String User :=
  let name := if userInfo.name == "" then none else some userInfo.name
  let (s1, user) := CreateUser s
    { id := 0,
      email := some userInfo.email,
      name := name,
      avatarURL := none,
      avatarKey := none,
      passwordHash := none,
      provider := some userInfo.provider,
      externalID := some userInfo.externalID,
      role := "user",
      lastLoginAt := none }
  (s1, .ok user)

/-- OAuthService.findOrCreateUser: email-match (link local / conflict / plain
login), else guest promotion when guestUserID > 0, else a fresh OAuth user.
On the local branch, LinkOAuthAccount failure is logged and the mutated
in-memory user is returned anyway. -/
def findOrCreateUser (secret : String) (now : Nat) (f : Faults) (s : Store)
    (userInfo : OAuthUserInfo) (guestUserID : Int) : Store × Except String User :=
  match GetUserByEmail s userInfo.email with
  | some user =>
    if user.provider == some "local" then
      let linked :=
        { user with
          externalID := some userInfo.externalID,
          provider := some userInfo.provider }
      let s1 :=
        if f.linkFails then s
        else (LinkOAuthAccount s user.id userInfo.provider userInfo.externalID).getD s
      let s2 := bestEffortLastLogin f s1 user.id now
      (s2, .ok linked)
    else
      match user.provider with
      | some p =>
        if p == userInfo.provider then
          (bestEffortLastLogin f s user.id now, .ok user)
        else
          (s, .error ("user already exists with provider: " ++ p))
      | none => (bestEffortLastLogin f s user.id now, .ok user)
  | none =>
    if guestUserID > 0 then
      match PromoteGuestToUser secret now f s guestUserID userInfo with
      | (s1, .ok (_token, promotedUser)) => (s1, .ok promotedUser)
      | (s1, .error e) => (s1, .error ("failed to promote guest: " ++ e))
    else
      createOAuthUser s userInfo

/-! ## Request authentication middleware (internal/middleware/auth.go) -/

/-- The observable outcome of a middleware layer: an immediate HTTP rejection,
or the request proceeding to the next handler with the context's user id and
role values. -/
inductive MwResult where
  | rejected (status : Nat) (body : String)
  | proceed (userID : Option Int) (role : Option String)
deriving Repr, DecidableEq

/-- strings.Split(h, " "): split at every space, keeping empty fields.  The
header is carried as `List Char` (a Go string is a byte slice). -/
def splitOnSpace : List Char → List (List Char)
  | [] => [[]]
  | c :: rest =>
    if c == ' ' then [] :: splitOnSpace rest
    else
      match splitOnSpace rest with
      | [] => [[c]]
      | field :: fields => (c :: field) :: fields

/-- middleware.AuthMiddleware.  The token validator argument abstracts
AuthService.ValidateToken; the middleware only inspects success or failure.
The Go code rejects on `len(parts) != 2 || parts[0] != "Bearer"` with one
message; the two match arms below carry that same message. -/
def AuthMiddleware (validateTok : List Char → Except TokenError (Int × String))
    (authHeader : Option (List Char)) : MwResult :=
  match authHeader with
  | none =>
    .rejected 401 "\x7b\"error\":\"Authorization header is required\"\x7d"
  | some h =>
    match splitOnSpace h with
    | [scheme, tokenString] =>
      if scheme == "Bearer".toList then
        match validateTok tokenString with
        | .ok (userID, role) => .proceed (some userID) (some role)
        | .error _ => .rejected 401 "\x7b\"error\":\"Invalid or expired token\"\x7d"
      else
        .rejected 401
          "\x7b\"error\":\"Invalid authorization header format. Expected: Bearer <token>\"\x7d"
    | _ =>
      .rejected 401
        "\x7b\"error\":\"Invalid authorization header format. Expected: Bearer <token>\"\x7d"

/-- middleware.OptionalAuthMiddleware: absent, malformed and invalid tokens all
fall through to the next handler with no identity attached. -/
def OptionalAuthMiddleware (validateTok : List Char → Except TokenError (Int × String))
    (authHeader : Option (List Char)) : MwResult :=
  match authHeader with
  | none => .proceed none none
  | some h =>
    match splitOnSpace h with
    | [scheme, tokenString] =>
      if scheme == "Bearer".toList then
        match validateTok tokenString with
        | .ok (userID, role) => .proceed (some userID) (some role)
        | .error _ => .proceed none none
      else .proceed none none
    | _ => .proceed none none

/-! ## Role gates (internal/middleware/admin.go) -/

/-- middleware.RequireAdmin: runs after AuthMiddleware; re-fetches the account
by the context user id and decides on the stored role.  The context role
(the token's role claim) is carried through but never consulted. -/
def RequireAdmin (s : Store) (ctxUserID : Option Int) (ctxRole : Option String) :
    MwResult :=
  match ctxUserID with
  | none => .rejected 401 "\x7b\"error\":\"User not authenticated\"\x7d"
  | some userID =>
    match GetUserByID s userID with
    | none => .rejected 500 "\x7b\"error\":\"Failed to verify user permissions\"\x7d"
    | some user =>
      if user.role == "admin" then .proceed (some userID) ctxRole
      else .rejected 403 "\x7b\"error\":\"Forbidden: Admin access required\"\x7d"

/-- middleware.RequireAuth: same re-fetch, accepting stored roles user, admin
and guest. -/
def RequireAuth (s : Store) (ctxUserID : Option Int) (ctxRole : Option String) :
    MwResult :=
  match ctxUserID with
  | none => .rejected 401 "\x7b\"error\":\"User not authenticated\"\x7d"
  | some userID =>
    match GetUserByID s userID with
    | none => .rejected 500 "\x7b\"error\":\"Failed to verify user\"\x7d"
    | some user =>
      if user.role == "user" || user.role == "admin" || user.role == "guest" then
        .proceed (some userID) ctxRole
      else .rejected 403 "\x7b\"error\":\"Forbidden: Invalid user role\"\x7d"

/-! ## OAuth state parameter (oauth_service.go: GetAuthURL, parseStateForGuestID,
findSubstring).  Go strings are byte slices indexed by position; `List Char`
carries that faithfully. -/

/-- A present Authorization header that fails the Bearer format check shared by
both middlewares: not exactly two space-separated parts, or scheme other than
"Bearer". -/
def headerMalformed (h : List Char) : Bool :=
  match splitOnSpace h with
  | [scheme, _] => scheme != "Bearer".toList
  | _ => true

/-! ## Concrete fixtures (used by witnesses and counterexamples) -/

/-- Did the middleware layer let the request through to the next handler? -/
def MwResult.passes : MwResult → Bool
  | .proceed _ _ => true
  | .rejected _ _ => false

def demoLocalHash : BcryptHash := bcryptGenerate bcryptDefaultCost 7 "secret1"

/-- A locally registered account (register "b@x.com"). -/
def demoLocalUser : User :=
  { id := 1, email := some "b@x.com", name := none, avatarURL := none,
    avatarKey := none, passwordHash := some demoLocalHash, provider := some "local",
    externalID := none, role := "user", lastLoginAt := none }

/-- An OAuth-only account (provider google, no password credential). -/
def demoOAuthUser : User :=
  { id := 2, email := some "o@x.com", name := none, avatarURL := none,
    avatarKey := none, passwordHash := none, provider := some "google",
    externalID := some "g-123", role := "user", lastLoginAt := none }

/-- A guest account (no email / password / provider). -/
def demoGuestUser : User :=
  { id := 3, email := none, name := none, avatarURL := none, avatarKey := none,
    passwordHash := none, provider := none, externalID := none, role := "guest",
    lastLoginAt := none }

/-- An admin account. -/
def demoAdminUser : User :=
  { id := 4, email := some "admin@x.com", name := none, avatarURL := none,
    avatarKey := none, passwordHash := some (bcryptGenerate bcryptDefaultCost 9 "adminpw"),
    provider := some "local", externalID := none, role := "admin", lastLoginAt := none }

def demoStore : Store :=
  { users := [demoLocalUser, demoOAuthUser, demoGuestUser, demoAdminUser], nextID := 5 }

def emptyStore : Store := { users := [], nextID := 1 }

/-- A Yandex identity carrying the email of the google-linked demo account. -/
def demoYandexInfo : OAuthUserInfo :=
  { email := "o@x.com", name := "O", avatarURL := "", externalID := "y-9",
    provider := "yandex" }

/-- A Google identity carrying the email of the local demo account. -/
def demoGoogleInfoLocalEmail : OAuthUserInfo :=
  { email := "b@x.com", name := "B", avatarURL := "", externalID := "g-77",
    provider := "google" }

/-- A Google identity with an email no account uses. -/
def demoFreshGoogleInfo : OAuthUserInfo :=
  { email := "g@x.com", name := "G", avatarURL := "", externalID := "g-55",
    provider := "google" }

/-- A token issued at time 1000 for the local demo account. -/
def demoToken : Token := GenerateToken "k" 1000 demoLocalUser

/-- demoToken with one byte of its signature segment altered. -/
def demoTamperedToken : Token := { demoToken with sig := demoToken.sig.set 0 999 }

/-! ## Helper lemmas -/

/-- A token checked at its own issuance instant, under the issuing secret,
validates to the user's id and role. -/
theorem validate_generate (secret : String) (now : Nat) (u : User) :
    ValidateToken secret now (GenerateToken secret now u) = .ok (u.id, u.role) := by
  simp [ValidateToken, GenerateToken, signingInput, hmacAlgs]

theorem find?_append_of_none {α} {p : α → Bool} {l₁ l₂ : List α}
    (h : l₁.find? p = none) : (l₁ ++ l₂).find? p = l₂.find? p := by
  rw [List.find?_append, h, Option.none_or]

theorem any_of_find?_eq_some {α} {p : α → Bool} {l : List α} {u : α}
    (h : l.find? p = some u) : l.any p = true := by
  rw [List.any_eq_true]
  exact ⟨u, List.mem_of_find?_eq_some h, List.find?_some h⟩

/-- find? by id commutes with an id-preserving row transformation. -/
theorem find?_map_of_id_preserving {l : List User} {g : User → User} {n : Int}
    (hg : ∀ x, (g x).id = x.id) :
    (l.map g).find? (fun u => u.id == n) = (l.find? (fun u => u.id == n)).map g := by
  induction l with
  | nil => rfl
  | cons x xs ih =>
    have hgx : ((g x).id == n) = (x.id == n) := by rw [hg x]
    cases hx : (x.id == n) with
    | true => simp [List.find?_cons, hgx, hx]
    | false => simp [List.find?_cons, hgx, hx, ih]

/-- With pairwise-distinct ids (the primary key), a by-id lookup of a member's
id returns exactly that member. -/
theorem find?_id_of_mem {l : List User} {u : User} (hmem : u ∈ l)
    (hdist : l.Pairwise (fun a b => a.id ≠ b.id)) :
    l.find? (fun x => x.id == u.id) = some u := by
  induction l with
  | nil => cases hmem
  | cons x xs ih =>
    rw [List.pairwise_cons] at hdist
    rcases List.mem_cons.mp hmem with rfl | hmem'
    · simp [List.find?_cons]
    · have hx : (x.id == u.id) = false := by
        simp only [beq_eq_false_iff_ne, ne_eq]
        exact hdist.1 u hmem'
      simp [List.find?_cons, hx]
      exact ih hmem' hdist.2

/-- Altering an in-range byte to a different value changes the byte list. -/
theorem set_ne_of_byte_ne {l : List Nat} {i b : Nat} (hi : i < l.length)
    (hb : b ≠ l.getD i 0) : l.set i b ≠ l := by
  intro he
  apply hb
  have h1 : (l.set i b)[i]? = some b := List.getElem?_set_self hi
  rw [he, List.getElem?_eq_getElem hi] at h1
  rw [List.getD_eq_getElem?_getD, List.getElem?_eq_getElem hi]
  exact (Option.some.inj h1).symm

/-! ## C1 — Login failure cases -/

/-- C1 counterexample: Login does NOT return the same generic error in all
three failure cases.  On the demo store, a password login against the
OAuth-only account (no password credential) yields the distinct error
"user must login via OAuth", while an unknown email and a wrong password
both yield "invalid email or password". -/
theorem login_error_not_uniform :
    (Login "k" 0 noFaults demoStore "o@x.com" "pw").2 = .error "user must login via OAuth" ∧
    (Login "k" 0 noFaults demoStore "nobody@x.com" "pw").2 = .error "invalid email or password" ∧
    (Login "k" 0 noFaults demoStore "b@x.com" "wrong").2 = .error "invalid email or password" ∧
    ("user must login via OAuth" : String) ≠ "invalid email or password" :=
  ⟨rfl, rfl, rfl, by decide⟩

/-- C1 (amended): a Login against an unknown email and a Login with a hash
mismatch return the same generic error "invalid email or password", but a
Login against an account without a password credential (OAuth-only account)
returns the distinct error "user must login via OAuth". -/
theorem login_failure_cases (secret : String) (now : Nat) (f : Faults) (s : Store)
    (email password : String) :
    (GetUserByEmail s email = none →
      (Login secret now f s email password).2 = .error "invalid email or password") ∧
    (∀ u, GetUserByEmail s email = some u → u.passwordHash = none →
      (Login secret now f s email password).2 = .error "user must login via OAuth") ∧
    (∀ u h, GetUserByEmail s email = some u → u.passwordHash = some h →
      bcryptCompare h password = false →
      (Login secret now f s email password).2 = .error "invalid email or password") := by
  refine ⟨fun h1 => ?_, fun u h1 h2 => ?_, fun u h h1 h2 h3 => ?_⟩
  · simp [Login, h1]
  · simp [Login, h1, h2]
  · simp [Login, h1, h2, h3]

/-- C1 (amended) witness at the demo store. -/
theorem login_failure_cases_witness :
    (Login "k" 0 noFaults demoStore "nobody@x.com" "pw").2 = .error "invalid email or password" ∧
    (Login "k" 0 noFaults demoStore "o@x.com" "pw").2 = .error "user must login via OAuth" ∧
    (Login "k" 0 noFaults demoStore "b@x.com" "wrong").2 = .error "invalid email or password" :=
  ⟨(login_failure_cases "k" 0 noFaults demoStore "nobody@x.com" "pw").1 (by decide),
   (login_failure_cases "k" 0 noFaults demoStore "o@x.com" "pw").2.1 demoOAuthUser (by decide) rfl,
   (login_failure_cases "k" 0 noFaults demoStore "b@x.com" "wrong").2.2 demoLocalUser demoLocalHash
     (by decide) rfl (by decide)⟩

/-! ## C2 — cross-provider email conflict -/

/-- C2: when the callback identity's email belongs to an existing account whose
provider tag is non-local and different from the authenticating provider,
findOrCreateUser fails with the provider-conflict error and leaves the store
(hence the existing account's provider and external-id) unchanged. -/
theorem findOrCreateUser_provider_conflict (secret : String) (now : Nat) (f : Faults)
    (s : Store) (info : OAuthUserInfo) (gid : Int) (u : User) (p : String)
    (hfind : GetUserByEmail s info.email = some u)
    (hp : u.provider = some p) (hnl : p ≠ "local") (hne : p ≠ info.provider) :
    findOrCreateUser secret now f s info gid =
      (s, .error ("user already exists with provider: " ++ p)) := by
  unfold findOrCreateUser
  rw [hfind]
  simp [hp, hnl, hne]

/-- C2 witness: the google-linked demo account conflicts with a yandex
identity carrying the same email; the store is returned untouched. -/
theorem findOrCreateUser_provider_conflict_witness :
    findOrCreateUser "k" 0 noFaults demoStore demoYandexInfo 0 =
      (demoStore, .error ("user already exists with provider: " ++ "google")) :=
  findOrCreateUser_provider_conflict "k" 0 noFaults demoStore demoYandexInfo 0
    demoOAuthUser "google" (by decide) rfl (by decide) (by decide)

/-! ## C9 — role gates decide on the stored role -/

/-- C9: RequireAdmin and RequireAuth re-fetch the account by the context user
id and decide on its stored role: RequireAdmin admits exactly role "admin",
RequireAuth admits exactly roles "user", "admin" and "guest", and neither
decision depends on the role claim carried in the context (the token's role
claim). -/
theorem role_gates_use_stored_role (s : Store) (uid : Int) (u : User)
    (ctxRole : Option String) (hfind : GetUserByID s uid = some u) :
    ((RequireAdmin s (some uid) ctxRole).passes = true ↔ u.role = "admin") ∧
    ((RequireAuth s (some uid) ctxRole).passes = true ↔
      (u.role = "user" ∨ u.role = "admin" ∨ u.role = "guest")) ∧
    (∀ r r' : Option String,
      (RequireAdmin s (some uid) r).passes = (RequireAdmin s (some uid) r').passes ∧
      (RequireAuth s (some uid) r).passes = (RequireAuth s (some uid) r').passes) := by
  refine ⟨?_, ?_, fun r r' => ⟨?_, ?_⟩⟩ <;>
    simp [RequireAdmin, RequireAuth, hfind, MwResult.passes] <;>
    by_cases h1 : u.role = "admin" <;>
    by_cases h2 : u.role = "user" <;>
    by_cases h3 : u.role = "guest" <;>
    simp [h1, h2, h3, MwResult.passes]

/-- C9 witness at the demo store: account 4 has stored role "admin", account 3
stored role "guest"; a stale token role claim does not matter. -/
theorem role_gates_use_stored_role_witness :
    ((RequireAdmin demoStore (some 4) (some "guest")).passes = true ↔
      demoAdminUser.role = "admin") ∧
    ((RequireAuth demoStore (some 3) (some "admin")).passes = true ↔
      (demoGuestUser.role = "user" ∨ demoGuestUser.role = "admin" ∨
        demoGuestUser.role = "guest")) :=
  ⟨(role_gates_use_stored_role demoStore 4 demoAdminUser (some "guest") (by decide)).1,
   (role_gates_use_stored_role demoStore 3 demoGuestUser (some "admin") (by decide)).2.1⟩

/-! ## C5 — token claims and validity window -/

/-- C5: a token issued by GenerateToken at instant now embeds
issuedAt = now, notBefore = now and expiresAt = now + 24h, and ValidateToken
accepts it at an instant t exactly when notBefore ≤ t < expiresAt — in
particular it is valid exactly at notBefore and invalid exactly at
expiresAt. -/
theorem generateToken_claims_window (secret : String) (now : Nat) (u : User) :
    ∃ c : Claims, (GenerateToken secret now u).payload = .claims c ∧
      c.issuedAt = now ∧ c.notBefore = now ∧ c.expiresAt = now + 86400 ∧
      (∀ t : Nat, (ValidateToken secret t (GenerateToken secret now u)).isOk = true ↔
        (c.notBefore ≤ t ∧ t < c.expiresAt)) ∧
      (ValidateToken secret c.notBefore (GenerateToken secret now u)).isOk = true ∧
      (ValidateToken secret c.expiresAt (GenerateToken secret now u)).isOk = false := by
  refine ⟨_, rfl, rfl, rfl, rfl, ?_, ?_, ?_⟩ <;>
    simp [ValidateToken, GenerateToken, signingInput, hmacAlgs, Except.isOk,
      Except.toBool]
  intro t
  by_cases h1 : t < now + 86400 <;> by_cases h2 : now ≤ t <;>
    simp [h1, h2, Except.isOk, Except.toBool]

/-! ## C4 — Register then Login round trip -/

/-- C4: for an email not already in use, Register succeeds, a subsequent Login
with the same email and password succeeds, and validating the login token
returns the account id assigned at registration together with role "user". -/
theorem register_then_login (secret : String) (nowR nowL salt : Nat) (f : Faults)
    (s : Store) (email password : String)
    (hfresh : GetUserByEmail s email = none) :
    ∃ s1 tok u, Register secret nowR salt s email password = (s1, .ok (tok, u)) ∧
      u.role = "user" ∧
      ∃ s2 tok2 u2, Login secret nowL f s1 email password = (s2, .ok (tok2, u2)) ∧
        ValidateToken secret nowL tok2 = .ok (u.id, "user") := by
  unfold Register
  rw [hfresh]
  simp only [CreateUser]
  refine ⟨_, _, _, rfl, rfl, ?_⟩
  have hfresh' : s.users.find? (fun u => u.email == some email) = none := hfresh
  have hfind1 : GetUserByEmail
      { users := s.users ++
          [{ id := s.nextID, email := some email, name := none, avatarURL := none,
             avatarKey := none,
             passwordHash := some (bcryptGenerate bcryptDefaultCost salt password),
             provider := some "local", externalID := none, role := "user",
             lastLoginAt := none }],
        nextID := s.nextID + 1 } email
      = some { id := s.nextID, email := some email, name := none, avatarURL := none,
               avatarKey := none,
               passwordHash := some (bcryptGenerate bcryptDefaultCost salt password),
               provider := some "local", externalID := none, role := "user",
               lastLoginAt := none } := by
    unfold GetUserByEmail
    rw [find?_append_of_none hfresh']
    simp [List.find?_cons]
  unfold Login
  rw [hfind1]
  simp only [bcryptCompare, bcryptGenerate, beq_self_eq_true, if_true]
  refine ⟨_, _, _, rfl, ?_⟩
  exact validate_generate secret nowL _

/-- C4 witness: registering a@x.com on the empty store then logging in. -/
theorem register_then_login_witness :
    ∃ s1 tok u, Register "k" 10 7 emptyStore "a@x.com" "secret1" = (s1, .ok (tok, u)) ∧
      u.role = "user" ∧
      ∃ s2 tok2 u2, Login "k" 20 noFaults s1 "a@x.com" "secret1" = (s2, .ok (tok2, u2)) ∧
        ValidateToken "k" 20 tok2 = .ok (u.id, "user") :=
  register_then_login "k" 10 20 7 noFaults emptyStore "a@x.com" "secret1" rfl

/-! ## C3 — guest promotion -/

/-- C3: when the guest id resolves to an account and the identity's email is
unused, PromoteGuestToUser yields an account with the same id, role "user" and
the identity's email, plus a fresh token validating to (id, "user"); when the
id does not resolve, it fails with the not-found error and leaves the store
unchanged. -/
theorem promoteGuestToUser_spec (secret : String) (now : Nat) (f : Faults)
    (s : Store) (gid : Int) (info : OAuthUserInfo) :
    (∀ u, GetUserByID s gid = some u → GetUserByEmail s info.email = none →
      ∃ s2 token promoted,
        PromoteGuestToUser secret now f s gid info = (s2, .ok (token, promoted)) ∧
        promoted.id = gid ∧ promoted.role = "user" ∧
        promoted.email = some info.email ∧
        ValidateToken secret now token = .ok (gid, "user")) ∧
    (GetUserByID s gid = none →
      PromoteGuestToUser secret now f s gid info =
        (s, .error "failed to find guest user: user not found")) := by
  constructor
  · intro u hu _hem
    have hid : u.id = gid := by simpa using List.find?_some hu
    have hany : s.users.any (fun old => old.id == u.id) = true := by
      rw [hid]; exact any_of_find?_eq_some hu
    have hmap :
        (s.users.map (fun old =>
          if old.id == u.id then
            { old with
              email := some info.email,
              name := if info.name == "" then none else some info.name,
              avatarKey := none,
              provider := some info.provider,
              externalID := some info.externalID,
              role := "user" }
          else old)).find? (fun x => x.id == gid)
        = some
            { u with
              email := some info.email,
              name := if info.name == "" then none else some info.name,
              avatarKey := none,
              provider := some info.provider,
              externalID := some info.externalID,
              role := "user" } := by
      rw [find?_map_of_id_preserving (fun x => by by_cases h : x.id == u.id <;> simp [h])]
      rw [show s.users.find? (fun x => x.id == gid) = some u from hu]
      simp
    have hu' : List.find? (fun x => x.id == gid) s.users = some u := hu
    simp only [PromoteGuestToUser, GetUserByID, hu', UpdateUser, hany, if_true]
    rw [hmap]
    refine ⟨_, _, _, rfl, by simp [hid], rfl, rfl, ?_⟩
    have hv := validate_generate secret now
      { u with
        email := some info.email,
        name := if info.name == "" then none else some info.name,
        avatarKey := none,
        provider := some info.provider,
        externalID := some info.externalID,
        role := "user" }
    simpa [hid] using hv
  · intro h
    simp [PromoteGuestToUser, h]

/-- C3 witness: promoting the demo guest (id 3) with a fresh google identity,
and failing on the unknown id 99. -/
theorem promoteGuestToUser_spec_witness :
    (∃ s2 token promoted,
      PromoteGuestToUser "k" 0 noFaults demoStore 3 demoFreshGoogleInfo =
        (s2, .ok (token, promoted)) ∧
      promoted.id = 3 ∧ promoted.role = "user" ∧
      promoted.email = some demoFreshGoogleInfo.email ∧
      ValidateToken "k" 0 token = .ok (3, "user")) ∧
    PromoteGuestToUser "k" 0 noFaults demoStore 99 demoFreshGoogleInfo =
      (demoStore, .error "failed to find guest user: user not found") :=
  ⟨(promoteGuestToUser_spec "k" 0 noFaults demoStore 3 demoFreshGoogleInfo).1
      demoGuestUser (by decide) (by decide),
   (promoteGuestToUser_spec "k" 0 noFaults demoStore 99 demoFreshGoogleInfo).2 (by decide)⟩

/-! ## C7 — linking an OAuth identity to a local account -/

/-- The link step of findOrCreateUser either leaves the store unchanged (store
error, tolerated) or remaps rows in place. -/
theorem linkStep_users (f : Faults) (s : Store) (idq : Int) (p e : String) :
    (if f.linkFails then s else (LinkOAuthAccount s idq p e).getD s).users = s.users ∨
    (if f.linkFails then s else (LinkOAuthAccount s idq p e).getD s).users =
      s.users.map (fun x =>
        if x.id == idq then { x with provider := some p, externalID := some e } else x) := by
  unfold LinkOAuthAccount
  by_cases h1 : f.linkFails
  · exact Or.inl (by simp [h1])
  · by_cases h2 : s.users.any (fun x => x.id == idq)
    · exact Or.inr (by simp [h1, h2])
    · exact Or.inl (by simp [h1, h2])

/-- The best-effort last-login update either leaves the store unchanged or
remaps rows in place. -/
theorem bestEffortLastLogin_users (f : Faults) (s : Store) (idq : Int) (now : Nat) :
    (bestEffortLastLogin f s idq now).users = s.users ∨
    (bestEffortLastLogin f s idq now).users =
      s.users.map (fun x =>
        if x.id == idq then { x with lastLoginAt := some now } else x) := by
  unfold bestEffortLastLogin UpdateLastLogin
  by_cases h1 : f.lastLoginFails
  · exact Or.inl (by simp [h1])
  · by_cases h2 : s.users.any (fun x => x.id == idq)
    · exact Or.inr (by simp [h1, h2])
    · exact Or.inl (by simp [h1, h2])

/-- find?-by-id through an id-preserving remap keeps password hash and role
whenever the remap does. -/
theorem find?_pres_hash_role {l : List User} {g : User → User} {n : Int}
    (hg : ∀ x, (g x).id = x.id)
    (hh : ∀ x, (g x).passwordHash = x.passwordHash ∧ (g x).role = x.role)
    {v : User} (hv : (l.map g).find? (fun x => x.id == n) = some v) :
    ∃ w, l.find? (fun x => x.id == n) = some w ∧
      v.passwordHash = w.passwordHash ∧ v.role = w.role := by
  rw [find?_map_of_id_preserving hg] at hv
  cases hw : l.find? (fun x => x.id == n) with
  | none => rw [hw] at hv; cases hv
  | some w =>
    rw [hw] at hv
    refine ⟨w, rfl, ?_, ?_⟩ <;>
      rw [← Option.some.inj hv] <;> simp [hh w, (hh w).1, (hh w).2]

/-- C7: an email match against a local account attaches the authenticating
provider and external-id to it, the returned account keeps its password
credential and role, no second account is created, and a token for that
account still validates — all of this also when the store write performing
the link fails. -/
theorem findOrCreateUser_links_local (secret : String) (now : Nat) (f : Faults)
    (s : Store) (info : OAuthUserInfo) (gid : Int) (u : User)
    (hids : s.users.Pairwise (fun a b => a.id ≠ b.id))
    (hfind : GetUserByEmail s info.email = some u)
    (hlocal : u.provider = some "local") :
    ∃ s2, findOrCreateUser secret now f s info gid =
        (s2, .ok { u with externalID := some info.externalID,
                          provider := some info.provider }) ∧
      s2.users.length = s.users.length ∧
      (∀ v, GetUserByID s2 u.id = some v →
        v.passwordHash = u.passwordHash ∧ v.role = u.role) ∧
      ValidateToken secret now
          (GenerateToken secret now
            { u with externalID := some info.externalID,
                     provider := some info.provider })
        = .ok (u.id, u.role) := by
  have hfind' : s.users.find? (fun x => x.email == some info.email) = some u := hfind
  have hmem : u ∈ s.users := List.mem_of_find?_eq_some hfind'
  have hbase : s.users.find? (fun x => x.id == u.id) = some u :=
    find?_id_of_mem hmem hids
  simp only [findOrCreateUser, GetUserByEmail, hfind', hlocal]
  norm_num
  refine ⟨?_, ?_, validate_generate secret now _⟩
  · rcases bestEffortLastLogin_users f
        (if f.linkFails then s
         else (LinkOAuthAccount s u.id info.provider info.externalID).getD s)
        u.id now with h2 | h2 <;>
      rcases linkStep_users f s u.id info.provider info.externalID with h1 | h1 <;>
      simp [h2, h1]
  · intro v hv
    have hv' : (bestEffortLastLogin f
        (if f.linkFails then s
         else (LinkOAuthAccount s u.id info.provider info.externalID).getD s)
        u.id now).users.find? (fun x => x.id == u.id) = some v := hv
    rcases bestEffortLastLogin_users f
        (if f.linkFails then s
         else (LinkOAuthAccount s u.id info.provider info.externalID).getD s)
        u.id now with h2 | h2 <;>
      rcases linkStep_users f s u.id info.provider info.externalID with h1 | h1 <;>
      rw [h2] at hv'
    · rw [h1] at hv'
      rw [hbase] at hv'
      rw [← Option.some.inj hv']
      exact ⟨rfl, rfl⟩
    · rw [h1] at hv'
      obtain ⟨w, hw, hv1, hv2⟩ := find?_pres_hash_role
        (fun x => by by_cases h : x.id == u.id <;> simp [h])
        (fun x => by by_cases h : x.id == u.id <;> simp [h]) hv'
      rw [hbase] at hw
      rw [← Option.some.inj hw] at hv1 hv2
      exact ⟨hv1, hv2⟩
    · rw [h1] at hv'
      obtain ⟨w, hw, hv1, hv2⟩ := find?_pres_hash_role
        (fun x => by by_cases h : x.id == u.id <;> simp [h])
        (fun x => by by_cases h : x.id == u.id <;> simp [h]) hv'
      rw [hbase] at hw
      rw [← Option.some.inj hw] at hv1 hv2
      exact ⟨hv1, hv2⟩
    · rw [h1, List.map_map] at hv'
      obtain ⟨w, hw, hv1, hv2⟩ := find?_pres_hash_role
        (fun x => by by_cases h : x.id == u.id <;> simp [Function.comp, h])
        (fun x => by by_cases h : x.id == u.id <;> simp [Function.comp, h]) hv'
      rw [hbase] at hw
      rw [← Option.some.inj hw] at hv1 hv2
      exact ⟨hv1, hv2⟩

/-- C7 witness: google identity with the local demo account's email, with the
link write failing; the account is still returned linked and the token is
valid. -/
theorem findOrCreateUser_links_local_witness :
    ∃ s2, findOrCreateUser "k" 0 { linkFails := true, lastLoginFails := false }
        demoStore demoGoogleInfoLocalEmail 0 =
        (s2, .ok { demoLocalUser with
                   externalID := some demoGoogleInfoLocalEmail.externalID,
                   provider := some demoGoogleInfoLocalEmail.provider }) ∧
      s2.users.length = demoStore.users.length ∧
      (∀ v, GetUserByID s2 demoLocalUser.id = some v →
        v.passwordHash = demoLocalUser.passwordHash ∧ v.role = demoLocalUser.role) ∧
      ValidateToken "k" 0
          (GenerateToken "k" 0
            { demoLocalUser with
              externalID := some demoGoogleInfoLocalEmail.externalID,
              provider := some demoGoogleInfoLocalEmail.provider })
        = .ok (demoLocalUser.id, demoLocalUser.role) :=
  findOrCreateUser_links_local "k" 0 { linkFails := true, lastLoginFails := false }
    demoStore demoGoogleInfoLocalEmail 0 demoLocalUser (by decide) (by decide) rfl

/-! ## C8 — absent vs malformed Authorization header -/

/-- C8 counterexample: with one and the same validator, the Required
middleware's rejection of an absent header is a different response value than
its rejection of a malformed header, so the two cases are not treated
identically by AuthMiddleware. -/
theorem authMiddleware_absent_ne_malformed :
    headerMalformed "Basic abc".toList = true ∧
    AuthMiddleware (fun _ => .error .malformed) none ≠
      AuthMiddleware (fun _ => .error .malformed) (some "Basic abc".toList) := by
  refine ⟨by decide, by decide⟩

/-- C8 (amended): a malformed Authorization header is rejected by the Required
middleware with the same 401 status as an absent header, but with a different
body ("Invalid authorization header format. Expected: Bearer <token>" instead
of "Authorization header is required"); the Optional middleware does treat the
two cases identically, proceeding with no identity attached in both. -/
theorem middleware_absent_vs_malformed
    (validateTok : List Char → Except TokenError (Int × String))
    (h : List Char) (hbad : headerMalformed h = true) :
    AuthMiddleware validateTok none =
      .rejected 401 "\x7b\"error\":\"Authorization header is required\"\x7d" ∧
    AuthMiddleware validateTok (some h) =
      .rejected 401
        "\x7b\"error\":\"Invalid authorization header format. Expected: Bearer <token>\"\x7d" ∧
    OptionalAuthMiddleware validateTok none = .proceed none none ∧
    OptionalAuthMiddleware validateTok (some h) = .proceed none none := by
  have hb := hbad
  unfold headerMalformed at hb
  refine ⟨rfl, ?_, rfl, ?_⟩
  · rcases hsp : splitOnSpace h with _ | ⟨a, _ | ⟨b, _ | ⟨c, tl⟩⟩⟩ <;>
      simp_all [AuthMiddleware]
  · rcases hsp : splitOnSpace h with _ | ⟨a, _ | ⟨b, _ | ⟨c, tl⟩⟩⟩ <;>
      simp_all [OptionalAuthMiddleware]

/-- C8 (amended) witness on the header "Basic abc". -/
theorem middleware_absent_vs_malformed_witness :
    AuthMiddleware (fun _ => .error .malformed) none =
      .rejected 401 "\x7b\"error\":\"Authorization header is required\"\x7d" ∧
    AuthMiddleware (fun _ => .error .malformed) (some "Basic abc".toList) =
      .rejected 401
        "\x7b\"error\":\"Invalid authorization header format. Expected: Bearer <token>\"\x7d" ∧
    OptionalAuthMiddleware (fun _ => .error .malformed) none = .proceed none none ∧
    OptionalAuthMiddleware (fun _ => .error .malformed) (some "Basic abc".toList) =
      .proceed none none :=
  middleware_absent_vs_malformed (fun _ => .error .malformed) "Basic abc".toList (by decide)

/-! ## C6 — ValidateToken failure behaviour -/

/-- C6 counterexample: the error ValidateToken returns is not uniform: a
tampered signature yields the wrapped signature-invalid cause while an expired
token yields the wrapped expiry cause, and the two error values differ. -/
theorem validateToken_error_not_uniform :
    ValidateToken "k" 1000 demoTamperedToken = .error .signatureInvalid ∧
    ValidateToken "k" (1000 + 86400) demoToken = .error .expired ∧
    TokenError.signatureInvalid ≠ TokenError.expired :=
  ⟨rfl, rfl, by decide⟩

/-- C6 (amended): ValidateToken fails whenever the payload cannot be decoded,
the header algorithm is not an HMAC scheme, the signature does not verify
under the configured secret — in particular after altering any one byte of a
valid token's signature segment, at any validation time — or the current time
lies outside [notBefore, expiresAt); but the error wraps the specific jwt
cause, so it is not uniform at this layer; the uniform rejection is produced
by AuthMiddleware, which answers every failed validation with the same 401
response. -/
theorem validateToken_failure_conditions (secret : String) :
    (∀ now t raw, t.payload = Payload.garbage raw →
      ValidateToken secret now t = .error .malformed) ∧
    (∀ now t c, t.payload = Payload.claims c → hmacAlgs.contains t.alg = false →
      ValidateToken secret now t = .error .unexpectedSigningMethod) ∧
    (∀ now t c, t.payload = Payload.claims c → hmacAlgs.contains t.alg = true →
      t.sig ≠ hmacSHA256 secret (signingInput t.alg t.payload) →
      ValidateToken secret now t = .error .signatureInvalid) ∧
    (∀ now t c, t.payload = Payload.claims c →
      ¬ (c.notBefore ≤ now ∧ now < c.expiresAt) →
      (ValidateToken secret now t).isOk = false) ∧
    (∀ issueTime u i b, i < (GenerateToken secret issueTime u).sig.length →
      b ≠ (GenerateToken secret issueTime u).sig.getD i 0 →
      ∀ checkTime, ValidateToken secret checkTime
          { GenerateToken secret issueTime u with
            sig := (GenerateToken secret issueTime u).sig.set i b }
        = .error .signatureInvalid) ∧
    (∀ validateTok h tokStr e, splitOnSpace h = ["Bearer".toList, tokStr] →
      validateTok tokStr = .error e →
      AuthMiddleware validateTok (some h) =
        .rejected 401 "\x7b\"error\":\"Invalid or expired token\"\x7d") := by
  have hsig : ∀ now t c, t.payload = Payload.claims c →
      hmacAlgs.contains t.alg = true →
      t.sig ≠ hmacSHA256 secret (signingInput t.alg t.payload) →
      ValidateToken secret now t = .error .signatureInvalid := by
    intro now t c h1 h2 h3
    rw [h1] at h3
    have h2' : t.alg ∈ hmacAlgs := by simpa using h2
    simp [ValidateToken, h1, h2', h3]
  refine ⟨?_, ?_, hsig, ?_, ?_, ?_⟩
  · intro now t raw h1
    simp [ValidateToken, h1]
  · intro now t c h1 h2
    have h2' : ¬ (t.alg ∈ hmacAlgs) := by simpa using h2
    simp [ValidateToken, h1, h2']
  · intro now t c h1 h2
    simp only [ValidateToken, h1]
    by_cases ha : t.alg ∈ hmacAlgs
    · by_cases hs : t.sig = hmacSHA256 secret (signingInput t.alg (Payload.claims c))
      · by_cases he : now < c.expiresAt
        · have hnb : ¬ (c.notBefore ≤ now) := fun hnb => h2 ⟨hnb, he⟩
          simp [ha, hs, he, hnb, Except.isOk, Except.toBool]
        · simp [ha, hs, he, Except.isOk, Except.toBool]
      · simp [ha, hs, Except.isOk, Except.toBool]
    · simp [ha, Except.isOk, Except.toBool]
  · intro issueTime u i b hi hb checkTime
    exact hsig checkTime _ _ rfl rfl (set_ne_of_byte_ne hi hb)
  · intro validateTok h tokStr e hsp hv
    simp [AuthMiddleware, hsp, hv]

/-- C6 (amended) witness: a garbage payload, a "none"-algorithm token, a
one-byte signature tamper, an expired check and the middleware's uniform 401
on a failed validation, each at concrete inputs. -/
theorem validateToken_failure_conditions_witness :
    ValidateToken "k" 0 { alg := "HS256", payload := Payload.garbage "zz", sig := [] }
      = .error .malformed ∧
    ValidateToken "k" 0
        { alg := "none",
          payload := Payload.claims
            { userID := 1, email := "", role := "user", expiresAt := 99, issuedAt := 0,
              notBefore := 0 },
          sig := [] }
      = .error .unexpectedSigningMethod ∧
    ValidateToken "k" 5
        { GenerateToken "k" 1000 demoLocalUser with
          sig := (GenerateToken "k" 1000 demoLocalUser).sig.set 0 999 }
      = .error .signatureInvalid ∧
    (ValidateToken "k" (1000 + 86400) (GenerateToken "k" 1000 demoLocalUser)).isOk = false ∧
    AuthMiddleware (fun _ => .error .expired) (some "Bearer x".toList) =
      .rejected 401 "\x7b\"error\":\"Invalid or expired token\"\x7d" :=
  ⟨(validateToken_failure_conditions "k").1 0 _ "zz" rfl,
   (validateToken_failure_conditions "k").2.1 0 _ _ rfl (by decide),
   (validateToken_failure_conditions "k").2.2.2.2.1 1000 demoLocalUser 0 999
     (by decide) (by decide) 5,
   (validateToken_failure_conditions "k").2.2.2.1 (1000 + 86400) _ _ rfl (by decide),
   (validateToken_failure_conditions "k").2.2.2.2.2 (fun _ => .error .expired)
     "Bearer x".toList "x".toList TokenError.expired (by decide) rfl⟩

/-! ## C10 — OAuth state round trip: digit rendering and scanning -/

end KoteyyeMusic
